import Mathlib

/-
Verification of the SQL-dashboard backend (templates/app.py) against its
natural-language specification.

The program is a small FastAPI application over SQLite.  We shallowly embed
its three core routines:

  * get_connection / query_database  (app.py lines 42-78): the Query Executor;
  * get_schema                       (app.py lines 81-121): the Schema Inspector;
  * create_example_databases         (app.py lines 124-203): the seeding routine.

The SQLite engine itself is not part of the repository.  Where a routine hands
an arbitrary SQL string to the engine (query_database), the engine is
abstracted as a function from the current database file and the statement to
an outcome (a result set, or an error carrying a message) - exactly the
interface the Python code consumes (cursor.execute / fetchall / description,
with sqlite3.Error on failure).  Where the routine issues only the fixed
catalog queries (get_schema, create_example_databases), the engine behaviour
on those fixed statements is modelled directly on the file state.

Python exceptions are modelled with Except: a function that can raise returns
Except PyError.  The distinction between ValueError (raised by get_connection)
and sqlite3.Error (the only class caught by query_database) is kept, since it
decides what propagates out of query_database.

Open connections are counted in the system state (openConns), so that
"every connection opened is closed before returning" becomes a statement
about that counter.
-/

/-- A single quote character, built from its code point so the source text of
this file stays free of quote literals. -/
def squote : String := String.singleton (Char.ofNat 39)

/-- A SQLite cell value, as surfaced by the Python sqlite3 driver: one of
integer, real, text, blob or NULL.  REAL is modelled as a rational. -/
inductive Cell where
  | null
  | int (i : Int)
  | real (r : Rat)
  | text (s : String)
  | blob (bytes : List Nat)
  deriving DecidableEq

instance : Inhabited Cell := ⟨Cell.null⟩

/-- One column of a table as PRAGMA table_info reports it: name and declared
type (empty string for an untyped column). -/
structure Column where
  name : String
  type : String
  deriving DecidableEq

/-- One user table: its columns in declaration order and its rows in storage
order. -/
structure Table where
  columns : List Column
  rows : List (List Cell)
  deriving DecidableEq

/-- The contents of one SQLite database file: the user tables in creation
order (the order the sqlite_master catalog lists them). -/
abbrev DBFile := List (String × Table)

/-- The state the routines act on: the database files by path, plus the number
of currently open connections. -/
structure SysState where
  files : List (String × DBFile)
  openConns : Nat
  deriving DecidableEq

/-- The empty starting state: no database files on disk, no open
connections. -/
def initState : SysState := { files := [], openConns := 0 }

/-- Path of the flights database file (BASE_DIR prefix elided). -/
def flights_db_path : String := "flights.db"

/-- Path of the transactions database file (BASE_DIR prefix elided). -/
def transactions_db_path : String := "transactions.db"

/-- Embeds DATABASES (app.py lines 36-39): the registry mapping logical
database names to file paths. -/
def DATABASES : List (String × String) :=
  [("flights", flights_db_path), ("transactions", transactions_db_path)]

/-- Writing a database file: replace the entry for the path (or create it).
Filter-and-append keeps lookups easy to reason about. -/
def setFile (files : List (String × DBFile)) (path : String) (f : DBFile) :
    List (String × DBFile) :=
  (files.filter (fun p => p.1 != path)) ++ [(path, f)]

/-- The Python exceptions the embedded routines can raise.  ValueError comes
from get_connection; sqliteError stands for the sqlite3.Error hierarchy. -/
inductive PyError where
  | valueError (msg : String)
  | sqliteError (msg : String)
  deriving DecidableEq

/-- The message of the ValueError raised by get_connection (app.py line 45). -/
def not_found_msg (db_name : String) : String :=
  "Database " ++ squote ++ db_name ++ squote ++ " not found."

/-- Outcome of the SQLite engine executing one arbitrary statement on one
database file: either a result set (the cursor description, i.e. column
names, or none when the statement produces no result set; the fetched rows;
the file contents afterwards), or a sqlite3.Error with its message. -/
inductive ExecResult where
  | ok (description : Option (List String)) (rows : List (List Cell)) (newFile : DBFile)
  | err (msg : String)
  deriving DecidableEq

/-- The engine interface query_database consumes: current file contents and
statement text in, outcome out.  query_database is verified for every engine
of this shape. -/
abbrev Engine := DBFile → String → ExecResult

/-- Embeds get_connection (app.py lines 42-48).  A name missing from
DATABASES raises ValueError; otherwise a connection to the file at the
registry path is opened (openConns goes up by one). -/
def get_connection (registry : List (String × String)) (db_name : String)
    (st : SysState) : Except PyError (String × SysState) :=
  match registry.lookup db_name with
  | none => Except.error (PyError.valueError (not_found_msg db_name))
  | some path =>
      Except.ok (path, { files := st.files, openConns := st.openConns + 1 })

/-- The dictionary query_database returns (app.py lines 63-75): success flag,
column names, data rows, optional error message. -/
structure QueryResultDict where
  success : Bool
  columns : List String
  data : List (List Cell)
  error : Option String
  deriving DecidableEq

/-- Embeds query_database (app.py lines 51-78).

The try block opens a connection via get_connection, executes the statement
and builds the success dictionary; except sqlite3.Error builds the failure
dictionary; finally closes the connection if the local variable conn exists.

Faithfully kept behaviours:
  * the ValueError from get_connection is NOT caught (the except clause names
    sqlite3.Error only), so it propagates as Except.error; on that path conn
    never entered locals, so the finally block closes nothing;
  * on both the success and the engine-error path the connection exists and
    the finally block closes it (openConns goes back down);
  * column_names is empty when cursor.description is None (no result set);
  * the rows are materialised verbatim. -/
def query_database (registry : List (String × String)) (engine : Engine)
    (st : SysState) (db_name query : String) :
    Except PyError QueryResultDict × SysState :=
  match get_connection registry db_name st with
  | Except.error e => (Except.error e, st)
  | Except.ok (path, st1) =>
      match engine ((st1.files.lookup path).getD []) query with
      | ExecResult.ok description rows newFile =>
          let column_names := description.getD []
          (Except.ok
            { success := true, columns := column_names, data := rows, error := none },
           { files := setFile st1.files path newFile, openConns := st1.openConns - 1 })
      | ExecResult.err msg =>
          (Except.ok
            { success := false, columns := [], data := [], error := some msg },
           { files := st1.files, openConns := st1.openConns - 1 })

/-- Models Python str.upper() on the ASCII declared-type strings the code
applies it to: uppercase every character. -/
def upperStr (s : String) : String := String.mk (s.data.map Char.toUpper)

/-- Models the Python substring test (keyword in col_type): does the needle
occur contiguously inside the haystack? -/
def containsStr (hay needle : String) : Bool :=
  hay.data.tails.any (fun t => needle.data.isPrefixOf t)

/-- Embeds the col_type computation (app.py line 104):
row[2].upper() if row[2] else '' - an absent or empty declared type becomes
the empty string, everything else is uppercased. -/
def coltype_of (raw : Option String) : String :=
  match raw with
  | none => ""
  | some s => if s == "" then "" else upperStr s

/-- Embeds the color_class computation (app.py lines 107-115): the Bootstrap
badge colour chosen by substring tests on the (already uppercased) declared
type, first match wins, default secondary. -/
def color_class (col_type : String) : String :=
  if ["INT", "REAL", "NUM"].any (fun k => containsStr col_type k) then "primary"
  else if ["CHAR", "TEXT", "CLOB"].any (fun k => containsStr col_type k) then "success"
  else if ["DATE", "TIME"].any (fun k => containsStr col_type k) then "warning"
  else if ["BLOB", "BOOL"].any (fun k => containsStr col_type k) then "info"
  else "secondary"

/-- Embeds the html_repr f-string (app.py line 117):
col_name followed by a span badge holding the uppercased declared type. -/
def html_repr (col_name col_type color_class_v : String) : String :=
  col_name ++ " <span class=" ++ squote ++ "badge bg-" ++ color_class_v ++
    " ms-1" ++ squote ++ ">" ++ col_type ++ "</span>"

/-- The per-column body of the PRAGMA loop (app.py lines 101-118): compute
col_type and color_class, build the HTML string. -/
def column_display (col : Column) : String :=
  let col_type := coltype_of (some col.type)
  html_repr col.name col_type (color_class col_type)

/-- The display categories of the spec data model (section 3,
ColumnDescriptor.displayCategory). -/
inductive DisplayCategory where
  | Numeric
  | Text
  | Temporal
  | BinaryOrBoolean
  | Unknown
  deriving DecidableEq

/-- Case-insensitive substring membership, as the spec words it: uppercase
both sides, then test containment. -/
def ciContains (hay needle : String) : Bool :=
  containsStr (upperStr hay) (upperStr needle)

/-- The spec-worded classifier (spec section 4.1): case-insensitive substring
matching against the declared type, in the fixed precedence Numeric, Text,
Temporal, BinaryOrBoolean, first match wins, otherwise Unknown.  Written from
the SPEC, to be compared with the code-derived color_class. -/
def displayCategory (declared : String) : DisplayCategory :=
  if ["INT", "REAL", "NUM"].any (fun k => ciContains declared k) then DisplayCategory.Numeric
  else if ["CHAR", "TEXT", "CLOB"].any (fun k => ciContains declared k) then DisplayCategory.Text
  else if ["DATE", "TIME"].any (fun k => ciContains declared k) then DisplayCategory.Temporal
  else if ["BLOB", "BOOL"].any (fun k => ciContains declared k) then DisplayCategory.BinaryOrBoolean
  else DisplayCategory.Unknown

/-- The fixed correspondence between the Bootstrap colour the code computes
and the display category the spec names for the same branch (spec section 4.1
list items 1-5 against app.py lines 107-115). -/
def categoryOfColor (c : String) : DisplayCategory :=
  if c == "primary" then DisplayCategory.Numeric
  else if c == "success" then DisplayCategory.Text
  else if c == "warning" then DisplayCategory.Temporal
  else if c == "info" then DisplayCategory.BinaryOrBoolean
  else DisplayCategory.Unknown

/-- Models sqlite executing the interpolated statement
PRAGMA table_info('{table}') (app.py line 97).  A single quote inside the
table name breaks the string literal and sqlite raises an OperationalError
(message text abbreviated); otherwise the pragma returns the columns of the
table in declaration order (and an empty list for an unknown table). -/
def pragma_table_info (file : DBFile) (table : String) : Except PyError (List Column) :=
  if table.data.contains (Char.ofNat 39) then
    Except.error (PyError.sqliteError "unrecognized token")
  else
    Except.ok (((file.lookup table).getD { columns := [], rows := [] }).columns)

/-- Equality of Except values is decidable once both components are; used to
evaluate the embedded routines on concrete inputs. -/
def exceptDecEq {e a : Type} [DecidableEq e] [DecidableEq a] :
    (x y : Except e a) → Decidable (x = y)
  | Except.error x, Except.error y =>
      if h : x = y then Decidable.isTrue (by rw [h])
      else Decidable.isFalse (fun hh => h (by cases hh; rfl))
  | Except.error _, Except.ok _ => Decidable.isFalse (fun hh => Except.noConfusion hh)
  | Except.ok _, Except.error _ => Decidable.isFalse (fun hh => Except.noConfusion hh)
  | Except.ok x, Except.ok y =>
      if h : x = y then Decidable.isTrue (by rw [h])
      else Decidable.isFalse (fun hh => h (by cases hh; rfl))

instance {e a : Type} [DecidableEq e] [DecidableEq a] : DecidableEq (Except e a) :=
  exceptDecEq

/-- Models the catalog query (app.py lines 92-95): names of the user tables,
in catalog order, excluding internal sqlite_ tables (the NOT LIKE filter on
the sqlite_ prefix). -/
def master_table_names (file : DBFile) : List String :=
  (file.map Prod.fst).filter (fun n => !(List.isPrefixOf "sqlite_".data n.data))

/-- The inner loop of get_schema over one database (app.py lines 96-119): for
each table run PRAGMA table_info and build the list of column display
strings.  A pragma error propagates (there is no try around the loop). -/
def process_tables (file : DBFile) :
    List String → Except PyError (List (String × List String))
  | [] => Except.ok []
  | t :: rest =>
      match pragma_table_info file t with
      | Except.error e => Except.error e
      | Except.ok cols =>
          match process_tables file rest with
          | Except.error e => Except.error e
          | Except.ok done => Except.ok ((t, cols.map column_display) :: done)

/-- The schema value get_schema builds: database name, then table name, then
the column display strings. -/
abbrev SchemaSnapshot := List (String × List (String × List String))

/-- The loop of get_schema over the registry (app.py lines 87-120): per
database, open a connection, list the user tables, process them, close the
connection.  There is no try/finally: if processing a table raises, the
connection stays open (openConns keeps the increment) and the exception
propagates out of the whole routine. -/
def get_schema_aux : List (String × String) → SysState →
    Except PyError SchemaSnapshot × SysState
  | [], st => (Except.ok [], st)
  | (db_name, db_path) :: rest, st =>
      let st1 : SysState := { files := st.files, openConns := st.openConns + 1 }
      let file := (st1.files.lookup db_path).getD []
      match process_tables file (master_table_names file) with
      | Except.error e => (Except.error e, st1)
      | Except.ok entries =>
          let st2 : SysState := { files := st1.files, openConns := st1.openConns - 1 }
          match get_schema_aux rest st2 with
          | (Except.error e, st3) => (Except.error e, st3)
          | (Except.ok done, st3) => (Except.ok ((db_name, entries) :: done), st3)

/-- Embeds get_schema (app.py lines 81-121): walk the DATABASES registry. -/
def get_schema (st : SysState) : Except PyError SchemaSnapshot × SysState :=
  get_schema_aux DATABASES st

/-- The columns of the flights table as created by the seeding routine
(app.py lines 135-146), in declaration order, with the declared types PRAGMA
table_info reports for them. -/
def flights_columns : List Column :=
  [{ name := "flight_id", type := "INTEGER" },
   { name := "airline", type := "TEXT" },
   { name := "origin", type := "TEXT" },
   { name := "destination", type := "TEXT" },
   { name := "departure_date", type := "TEXT" },
   { name := "arrival_date", type := "TEXT" },
   { name := "status", type := "TEXT" },
   { name := "price", type := "REAL" }]

/-- The ten rows inserted into flights (app.py lines 147-158), without the
autoincremented flight_id. -/
def flights_data : List (List Cell) :=
  [[Cell.text "Air Blue", Cell.text "São Paulo", Cell.text "Rio de Janeiro",
    Cell.text "2025-01-10", Cell.text "2025-01-10", Cell.text "On Time", Cell.real 150],
   [Cell.text "Air Green", Cell.text "Rio de Janeiro", Cell.text "São Paulo",
    Cell.text "2025-01-11", Cell.text "2025-01-11", Cell.text "Delayed", Cell.real 200],
   [Cell.text "Air Red", Cell.text "Brasília", Cell.text "São Paulo",
    Cell.text "2025-02-05", Cell.text "2025-02-05", Cell.text "Cancelled", Cell.real 300],
   [Cell.text "Air Blue", Cell.text "São Paulo", Cell.text "Brasília",
    Cell.text "2025-03-15", Cell.text "2025-03-15", Cell.text "On Time", Cell.real 220],
   [Cell.text "Air Green", Cell.text "Curitiba", Cell.text "São Paulo",
    Cell.text "2025-04-20", Cell.text "2025-04-20", Cell.text "On Time", Cell.real 180],
   [Cell.text "Air Red", Cell.text "São Paulo", Cell.text "Curitiba",
    Cell.text "2025-05-30", Cell.text "2025-05-30", Cell.text "On Time", Cell.real 160],
   [Cell.text "Air Yellow", Cell.text "Rio de Janeiro", Cell.text "Brasília",
    Cell.text "2025-06-12", Cell.text "2025-06-12", Cell.text "Delayed", Cell.real 250],
   [Cell.text "Air Blue", Cell.text "Brasília", Cell.text "Rio de Janeiro",
    Cell.text "2025-07-22", Cell.text "2025-07-22", Cell.text "On Time", Cell.real 210],
   [Cell.text "Air Yellow", Cell.text "Curitiba", Cell.text "Rio de Janeiro",
    Cell.text "2025-08-05", Cell.text "2025-08-05", Cell.text "Cancelled", Cell.real 230],
   [Cell.text "Air Green", Cell.text "São Paulo", Cell.text "Curitiba",
    Cell.text "2025-09-10", Cell.text "2025-09-10", Cell.text "On Time", Cell.real 190]]

/-- The columns of the transactions table (app.py lines 170-180), in
declaration order. -/
def transactions_columns : List Column :=
  [{ name := "transaction_id", type := "INTEGER" },
   { name := "date", type := "TEXT" },
   { name := "merchant", type := "TEXT" },
   { name := "category", type := "TEXT" },
   { name := "amount", type := "REAL" },
   { name := "card_type", type := "TEXT" },
   { name := "location", type := "TEXT" }]

/-- The fifteen rows inserted into transactions (app.py lines 181-197),
without the autoincremented transaction_id. -/
def transactions_data : List (List Cell) :=
  [[Cell.text "2025-01-15", Cell.text "Supermercado SP", Cell.text "Groceries",
    Cell.real (241/2), Cell.text "Visa", Cell.text "São Paulo"],
   [Cell.text "2025-01-20", Cell.text "Restaurante RJ", Cell.text "Dining",
    Cell.real (323/4), Cell.text "MasterCard", Cell.text "Rio de Janeiro"],
   [Cell.text "2025-02-12", Cell.text "Posto de Gasolina", Cell.text "Fuel",
    Cell.real 50, Cell.text "Visa", Cell.text "Brasília"],
   [Cell.text "2025-02-28", Cell.text "Loja de Roupas", Cell.text "Clothing",
    Cell.real 200, Cell.text "Amex", Cell.text "Curitiba"],
   [Cell.text "2025-03-10", Cell.text "Cinema SP", Cell.text "Entertainment",
    Cell.real 45, Cell.text "Visa", Cell.text "São Paulo"],
   [Cell.text "2025-04-05", Cell.text "Farmácia RJ", Cell.text "Pharmacy",
    Cell.real 60, Cell.text "MasterCard", Cell.text "Rio de Janeiro"],
   [Cell.text "2025-05-14", Cell.text "Academia", Cell.text "Fitness",
    Cell.real 120, Cell.text "Amex", Cell.text "São Paulo"],
   [Cell.text "2025-06-18", Cell.text "Livraria", Cell.text "Books",
    Cell.real (301/4), Cell.text "Visa", Cell.text "Brasília"],
   [Cell.text "2025-07-07", Cell.text "Hotel", Cell.text "Travel",
    Cell.real 500, Cell.text "MasterCard", Cell.text "Curitiba"],
   [Cell.text "2025-08-19", Cell.text "Loja Eletrônica", Cell.text "Electronics",
    Cell.real 350, Cell.text "Amex", Cell.text "São Paulo"],
   [Cell.text "2025-09-30", Cell.text "Restaurante Brasília", Cell.text "Dining",
    Cell.real 90, Cell.text "Visa", Cell.text "Brasília"],
   [Cell.text "2025-10-05", Cell.text "Supermercado RJ", Cell.text "Groceries",
    Cell.real (523/4), Cell.text "MasterCard", Cell.text "Rio de Janeiro"],
   [Cell.text "2025-10-15", Cell.text "Festa", Cell.text "Entertainment",
    Cell.real 200, Cell.text "Amex", Cell.text "São Paulo"],
   [Cell.text "2025-11-01", Cell.text "Serviços", Cell.text "Utilities",
    Cell.real 180, Cell.text "Visa", Cell.text "Curitiba"],
   [Cell.text "2025-11-20", Cell.text "Transporte", Cell.text "Transport",
    Cell.real (61/2), Cell.text "MasterCard", Cell.text "Rio de Janeiro"]]

/-- Models the AUTOINCREMENT primary key on a freshly created table: row i of
the insert batch receives id i+1, prepended as the first cell. -/
def autoinc_rows (data : List (List Cell)) : List (List Cell) :=
  data.enum.map (fun p => Cell.int (Int.ofNat p.1 + 1) :: p.2)

/-- One half of the seeding routine on one file: DROP TABLE IF EXISTS
followed by CREATE TABLE and the batch insert (app.py lines 134-162 for
flights, 169-201 for transactions).  Dropping removes the old table (and its
autoincrement counter); recreating appends it to the catalog with the fresh
rows. -/
def seed_table (file : DBFile) (name : String) (cols : List Column)
    (data : List (List Cell)) : DBFile :=
  (file.filter (fun p => p.1 != name)) ++
    [(name, { columns := cols, rows := autoinc_rows data })]

/-- Embeds create_example_databases (app.py lines 124-203): connect to the
flights file, drop and recreate the flights table with its ten rows, commit
and close; then the same for transactions with its fifteen rows.  Each
connection is opened and closed within the routine, so openConns is
unchanged. -/
def create_example_databases (st : SysState) : SysState :=
  let flightsFile := (st.files.lookup flights_db_path).getD []
  let files1 := setFile st.files flights_db_path
    (seed_table flightsFile "flights" flights_columns flights_data)
  let txFile := (files1.lookup transactions_db_path).getD []
  { files := setFile files1 transactions_db_path
      (seed_table txFile "transactions" transactions_columns transactions_data),
    openConns := st.openConns }

/-- The state right after seeding from the empty starting state, as the
application startup hook produces it (app.py lines 206-209). -/
def seededState : SysState := create_example_databases initState

/-- An engine that reports an error on every statement; used only to evaluate
query_database on concrete inputs whose path never reaches the engine. -/
def stubEngine : Engine := fun _ _ => ExecResult.err "stub"

/-- An engine whose reply on every statement is the sqlite syntax-error
message for a misspelled SELECT; stands for the engine meeting a
syntactically invalid statement. -/
def errEngine : Engine := fun _ _ => ExecResult.err "near SELEC: syntax error"

/-- An engine that answers every statement with a one-column one-row result
set and leaves the file unchanged; stands for the engine executing
SELECT COUNT(*) AS n FROM flights. -/
def okEngine : Engine := fun f _ => ExecResult.ok (some ["n"]) [[Cell.int 10]] f

/-- An engine that answers every statement with no result set (description
None, no rows), as a DDL or DML statement does. -/
def ddlEngine : Engine := fun f _ => ExecResult.ok none [] f

/-- A user table name holding a single quote.  Such a table is legal in
sqlite (created e.g. by a prior CREATE TABLE sent through query_database) and
breaks the interpolated PRAGMA statement of get_schema. -/
def bad_table_name : String := "bad" ++ squote ++ "tbl"

/-- A database state in which flights.db contains one table whose name holds
a single quote and no connection is open. -/
def leak_state : SysState :=
  { files := [(flights_db_path,
      [(bad_table_name, { columns := [{ name := "a", type := "INT" }], rows := [] })])],
    openConns := 0 }

/-- The schema snapshot expected for the freshly seeded databases: per
database its single table, with the column display strings in declaration
order. -/
def expected_snapshot : SchemaSnapshot :=
  [("flights", [("flights", flights_columns.map column_display)]),
   ("transactions", [("transactions", transactions_columns.map column_display)])]

/-- The rows of the table named tbl in the file at path (empty when the file
or the table is absent). -/
def rowsAt (st : SysState) (path tbl : String) : List (List Cell) :=
  ((((st.files.lookup path).getD []).lookup tbl).getD { columns := [], rows := [] }).rows

/-- A query result is rectangular when every data row has exactly one cell
per column header. -/
def rectangular (r : QueryResultDict) : Prop :=
  ∀ row ∈ r.data, row.length = r.columns.length

/-- Looking up a key right after consing a pair with that key finds the
pair. -/
theorem lookup_cons_self {b : Type} (k : String) (v : b) (l : List (String × b)) :
    List.lookup k ((k, v) :: l) = some v := by
  simp [List.lookup]

/-- Looking up a key skips a consed pair with a different key. -/
theorem lookup_cons_ne {b : Type} (k m : String) (v : b) (l : List (String × b))
    (h : m ≠ k) : List.lookup m ((k, v) :: l) = List.lookup m l := by
  have hb : (m == k) = false := by simp [h]
  simp [List.lookup, hb]

/-- After removing every pair keyed n and appending a fresh pair (n, v),
looking up n finds v. -/
theorem lookup_filter_append {b : Type} (l : List (String × b)) (n : String) (v : b) :
    List.lookup n ((l.filter (fun p => p.1 != n)) ++ [(n, v)]) = some v := by
  induction l with
  | nil => simp [List.lookup]
  | cons hd tl ih =>
      obtain ⟨k, w⟩ := hd
      by_cases h : k = n
      · have hb : ((k, w).1 != n) = false := by simp [h]
        simpa [List.filter_cons, hb] using ih
      · have hb : ((k, w).1 != n) = true := by simp [h]
        have hcons : List.lookup n ((k, w) :: (tl.filter (fun p => p.1 != n) ++ [(n, v)])) =
            List.lookup n (tl.filter (fun p => p.1 != n) ++ [(n, v)]) :=
          lookup_cons_ne k n w _ (Ne.symm h)
        simpa [List.filter_cons, hb] using hcons.trans ih

/-- Removing every pair keyed n and appending a fresh (n, v) leaves lookups
of any other key unchanged. -/
theorem lookup_filter_append_ne {b : Type} (l : List (String × b)) (n m : String) (v : b)
    (hnm : m ≠ n) :
    List.lookup m ((l.filter (fun p => p.1 != n)) ++ [(n, v)]) = List.lookup m l := by
  induction l with
  | nil => simpa using lookup_cons_ne n m v [] hnm
  | cons hd tl ih =>
      obtain ⟨k, w⟩ := hd
      by_cases h : k = n
      · have hm : m ≠ k := fun hh => hnm (hh.trans h)
        have hb : ((k, w).1 != n) = false := by simp [h]
        have hcons : List.lookup m ((k, w) :: tl) = List.lookup m tl :=
          lookup_cons_ne k m w tl hm
        simpa [List.filter_cons, hb, hcons] using ih
      · have hb : ((k, w).1 != n) = true := by simp [h]
        by_cases h2 : m = k
        · subst h2
          simp [List.filter_cons, hb, List.lookup]
        · have hc1 : List.lookup m ((k, w) :: (tl.filter (fun p => p.1 != n) ++ [(n, v)])) =
              List.lookup m (tl.filter (fun p => p.1 != n) ++ [(n, v)]) :=
            lookup_cons_ne k m w _ h2
          have hc2 : List.lookup m ((k, w) :: tl) = List.lookup m tl :=
            lookup_cons_ne k m w tl h2
          simpa [List.filter_cons, hb, hc2] using hc1.trans ih

/-- Reading a path back from setFile finds the file just written. -/
theorem lookup_setFile_same (files : List (String × DBFile)) (path : String) (f : DBFile) :
    List.lookup path (setFile files path f) = some f :=
  lookup_filter_append files path f

/-- setFile leaves every other path unchanged. -/
theorem lookup_setFile_ne (files : List (String × DBFile)) (path m : String) (f : DBFile)
    (h : m ≠ path) :
    List.lookup m (setFile files path f) = List.lookup m files :=
  lookup_filter_append_ne files path m f h

/-- After seed_table, the seeded table holds exactly the fresh rows,
whatever the file held before. -/
theorem lookup_seed_table (file : DBFile) (name : String) (cols : List Column)
    (data : List (List Cell)) :
    List.lookup name (seed_table file name cols data) =
      some { columns := cols, rows := autoinc_rows data } :=
  lookup_filter_append file name _

/-- After any run of the seeding routine, the flights table holds exactly the
ten fresh rows. -/
theorem rowsAt_seed_flights (st : SysState) :
    rowsAt (create_example_databases st) flights_db_path "flights" =
      autoinc_rows flights_data := by
  unfold rowsAt create_example_databases
  rw [lookup_setFile_ne _ _ _ _ (by decide), lookup_setFile_same]
  simp [lookup_seed_table]

/-- After any run of the seeding routine, the transactions table holds
exactly the fifteen fresh rows. -/
theorem rowsAt_seed_transactions (st : SysState) :
    rowsAt (create_example_databases st) transactions_db_path "transactions" =
      autoinc_rows transactions_data := by
  unfold rowsAt create_example_databases
  rw [lookup_setFile_same]
  simp [lookup_seed_table]

/-- The col_type computation equals uppercasing the declared type after
defaulting an absent one to the empty string. -/
theorem coltype_eq (raw : Option String) : coltype_of raw = upperStr (raw.getD "") := by
  cases raw with
  | none => decide
  | some s =>
      by_cases h : s = ""
      · subst h; decide
      · have hb : (s == "") = false := by simp [h]
        simp [coltype_of, hb, Option.getD]

/-- On an uppercased declared type, the colour the code picks corresponds
exactly to the category the spec words pick on the raw declared type. -/
theorem classify_agrees (s : String) :
    categoryOfColor (color_class (upperStr s)) = displayCategory s := by
  have h1 : upperStr "INT" = "INT" := by decide
  have h2 : upperStr "REAL" = "REAL" := by decide
  have h3 : upperStr "NUM" = "NUM" := by decide
  have h4 : upperStr "CHAR" = "CHAR" := by decide
  have h5 : upperStr "TEXT" = "TEXT" := by decide
  have h6 : upperStr "CLOB" = "CLOB" := by decide
  have h7 : upperStr "DATE" = "DATE" := by decide
  have h8 : upperStr "TIME" = "TIME" := by decide
  have h9 : upperStr "BLOB" = "BLOB" := by decide
  have h10 : upperStr "BOOL" = "BOOL" := by decide
  simp only [displayCategory, ciContains, color_class, categoryOfColor,
    List.any_cons, List.any_nil, h1, h2, h3, h4, h5, h6, h7, h8, h9, h10,
    Bool.or_false]
  generalize (containsStr (upperStr s) "INT" ||
      (containsStr (upperStr s) "REAL" || containsStr (upperStr s) "NUM")) = cA
  generalize (containsStr (upperStr s) "CHAR" ||
      (containsStr (upperStr s) "TEXT" || containsStr (upperStr s) "CLOB")) = cB
  generalize (containsStr (upperStr s) "DATE" || containsStr (upperStr s) "TIME") = cC
  generalize (containsStr (upperStr s) "BLOB" || containsStr (upperStr s) "BOOL") = cD
  cases cA <;> cases cB <;> cases cC <;> cases cD <;> decide

/-- get_schema_aux never writes a database file, whatever registry it walks. -/
theorem get_schema_aux_files (registry : List (String × String)) (st : SysState) :
    ((get_schema_aux registry st).2).files = st.files := by
  induction registry generalizing st with
  | nil => rfl
  | cons hd rest ih =>
      obtain ⟨db_name, db_path⟩ := hd
      unfold get_schema_aux
      cases hp : process_tables ((List.lookup db_path st.files).getD [])
          (master_table_names ((List.lookup db_path st.files).getD [])) with
      | error e => simp [hp]
      | ok entries =>
          simp only [hp]
          cases hr : get_schema_aux rest
              { files := st.files, openConns := st.openConns + 1 - 1 } with
          | mk res st3 =>
              have hf := ih { files := st.files, openConns := st.openConns + 1 - 1 }
              rw [hr] at hf
              cases res <;> simpa [hr] using hf

/-- Claim C1.  The claim states that query_database with an unknown database
name returns an envelope with success false and a non-empty error and never
raises.  The code instead raises: get_connection throws ValueError, the
except clause catches only sqlite3.Error, so the ValueError propagates to the
caller.  This theorem evaluates the routine at the failing input and shows
the raised ValueError (Except.error, not an envelope). -/
theorem query_database_unknown_db_raises_value_error :
    query_database DATABASES stubEngine initState "nope" "SELECT 1" =
      (Except.error (PyError.valueError (not_found_msg "nope")), initState) := by
  rfl

/-- Claim C2.  The claim states every connection get_schema opens is closed
on every exit path, including when iterating a database table throws.  The
code has no try/finally: when PRAGMA table_info raises (here because a user
table name contains a single quote, which breaks the interpolated pragma
statement), the connection stays open and the exception propagates.  At the
failing state one opened connection is left open. -/
theorem get_schema_leaks_connection_when_pragma_throws :
    (get_schema leak_state).2.openConns = leak_state.openConns + 1 ∧
    (get_schema leak_state).1 = Except.error (PyError.sqliteError "unrecognized token") := by
  exact ⟨by decide, by decide⟩

/-- Claim C3.  For a known database name and a statement the engine rejects
(e.g. syntactically invalid SQL) with a non-empty message, query_database
returns exactly the envelope success false, empty columns, empty data, the
engine message as error - and returns it normally (Except.ok), never
propagating the engine error. -/
theorem query_database_engine_error_envelope
    (registry : List (String × String)) (engine : Engine) (st : SysState)
    (db_name query path msg : String)
    (hdb : registry.lookup db_name = some path)
    (herr : engine ((st.files.lookup path).getD []) query = ExecResult.err msg)
    (hmsg : msg ≠ "") :
    (query_database registry engine st db_name query).1 =
      Except.ok { success := false, columns := [], data := [], error := some msg } ∧
    msg ≠ "" := by
  refine ⟨?_, hmsg⟩
  simp [query_database, get_connection, hdb, herr]

/-- Witness for claim C3 at a concrete input: the flights database with a
misspelled SELECT. -/
theorem query_database_engine_error_envelope_witness :
    DATABASES.lookup "flights" = some flights_db_path ∧
    ((query_database DATABASES errEngine initState "flights" "SELEC * FROM flights").1 =
        Except.ok { success := false, columns := [], data := [],
                    error := some "near SELEC: syntax error" } ∧
      "near SELEC: syntax error" ≠ "") :=
  ⟨by decide,
   query_database_engine_error_envelope DATABASES errEngine initState
     "flights" "SELEC * FROM flights" flights_db_path "near SELEC: syntax error"
     (by decide) (by rfl) (by decide)⟩

/-- Claim C4.  Every envelope query_database actually returns (the
Except.ok results; the unknown-database path raises and returns none)
satisfies the invariant: success true exactly when error is absent, and
success false implies empty columns, empty data and a present error. -/
theorem query_result_success_error_invariant
    (registry : List (String × String)) (engine : Engine) (st : SysState)
    (db_name query : String) (r : QueryResultDict) (st2 : SysState)
    (h : query_database registry engine st db_name query = (Except.ok r, st2)) :
    (r.success = true ↔ r.error = none) ∧
    (r.success = false → r.columns = [] ∧ r.data = [] ∧ r.error.isSome = true) := by
  unfold query_database get_connection at h
  cases hdb : registry.lookup db_name with
  | none => rw [hdb] at h; simp at h
  | some path =>
      rw [hdb] at h
      simp only at h
      cases he : engine ((st.files.lookup path).getD []) query with
      | ok d rows f =>
          rw [he] at h
          simp only [Prod.mk.injEq, Except.ok.injEq] at h
          obtain ⟨hr, -⟩ := h
          subst hr
          simp
      | err m =>
          rw [he] at h
          simp only [Prod.mk.injEq, Except.ok.injEq] at h
          obtain ⟨hr, -⟩ := h
          subst hr
          simp

/-- Witness for claim C4 at a concrete input: a successful one-column
count query against the seedable flights database. -/
theorem query_result_success_error_invariant_witness :
    (({ success := true, columns := ["n"], data := [[Cell.int 10]],
        error := none } : QueryResultDict).success = true ↔
      ({ success := true, columns := ["n"], data := [[Cell.int 10]],
         error := none } : QueryResultDict).error = none) ∧
    (({ success := true, columns := ["n"], data := [[Cell.int 10]],
        error := none } : QueryResultDict).success = false →
      ({ success := true, columns := ["n"], data := [[Cell.int 10]],
         error := none } : QueryResultDict).columns = [] ∧
      ({ success := true, columns := ["n"], data := [[Cell.int 10]],
         error := none } : QueryResultDict).data = [] ∧
      ({ success := true, columns := ["n"], data := [[Cell.int 10]],
         error := none } : QueryResultDict).error.isSome = true) :=
  query_result_success_error_invariant DATABASES okEngine initState "flights"
    "SELECT COUNT(*) AS n FROM flights"
    { success := true, columns := ["n"], data := [[Cell.int 10]], error := none }
    { files := [(flights_db_path, [])], openConns := 0 }
    (by rfl)

/-- Claim C5.  The column classifier of get_schema agrees with the spec on
every declared type: case-insensitive substring membership in the fixed
precedence Numeric (INT, REAL, NUM), Text (CHAR, TEXT, CLOB), Temporal
(DATE, TIME), BinaryOrBoolean (BLOB, BOOL), first match wins, otherwise
Unknown, with an empty or absent declared type treated as the empty string;
and in particular INTEGER is Numeric, TEXT is Text, DATE is Temporal, BLOB
is BinaryOrBoolean, and the empty string and FANCYTYPE are Unknown. -/
theorem column_classifier_matches_spec :
    (∀ raw : Option String,
        categoryOfColor (color_class (coltype_of raw)) = displayCategory (raw.getD "")) ∧
    categoryOfColor (color_class (coltype_of (some "INTEGER"))) = DisplayCategory.Numeric ∧
    categoryOfColor (color_class (coltype_of (some "TEXT"))) = DisplayCategory.Text ∧
    categoryOfColor (color_class (coltype_of (some "DATE"))) = DisplayCategory.Temporal ∧
    categoryOfColor (color_class (coltype_of (some "BLOB"))) = DisplayCategory.BinaryOrBoolean ∧
    categoryOfColor (color_class (coltype_of (some ""))) = DisplayCategory.Unknown ∧
    categoryOfColor (color_class (coltype_of (some "FANCYTYPE"))) = DisplayCategory.Unknown ∧
    categoryOfColor (color_class (coltype_of none)) = DisplayCategory.Unknown ∧
    coltype_of none = "" ∧ coltype_of (some "") = "" :=
  ⟨fun raw => by rw [coltype_eq]; exact classify_agrees _,
   by decide, by decide, by decide, by decide, by decide, by decide, by decide,
   by decide, by decide⟩

/-- Claim C6.  For every registry, engine, state, database name and
statement, the connection count after query_database equals the count
before: the connection opened for the call (if any) is closed before
returning, on the success path, on the engine-error path, and on the
unknown-database path no connection is opened at all. -/
theorem query_database_always_closes_connection
    (registry : List (String × String)) (engine : Engine) (st : SysState)
    (db_name query : String) :
    ((query_database registry engine st db_name query).2).openConns = st.openConns := by
  unfold query_database get_connection
  cases hdb : registry.lookup db_name with
  | none => rfl
  | some path =>
      cases he : engine ((st.files.lookup path).getD []) query with
      | ok d r f => simp [he]
      | err m => simp [he]

/-- Claim C7.  From any starting state, running the seeding routine twice
leaves exactly ten rows in the flights table and exactly fifteen rows in the
transactions table, with no duplicated rows in either. -/
theorem create_example_databases_idempotent_row_counts (st : SysState) :
    (rowsAt (create_example_databases (create_example_databases st))
        flights_db_path "flights").length = 10 ∧
    (rowsAt (create_example_databases (create_example_databases st))
        transactions_db_path "transactions").length = 15 ∧
    (rowsAt (create_example_databases (create_example_databases st))
        flights_db_path "flights").Nodup ∧
    (rowsAt (create_example_databases (create_example_databases st))
        transactions_db_path "transactions").Nodup := by
  rw [rowsAt_seed_flights, rowsAt_seed_transactions]
  exact ⟨by decide, by decide,
    List.Nodup.of_map List.headI (by decide),
    List.Nodup.of_map List.headI (by decide)⟩

/-- Claim C8.  Immediately after seeding, get_schema returns for the flights
table exactly the per-column display strings obtained by mapping over the
declared columns in declaration order - and that declaration order is
flight_id, airline, origin, destination, departure_date, arrival_date,
status, price. -/
theorem get_schema_preserves_flights_column_order :
    (get_schema seededState).1 = Except.ok expected_snapshot ∧
    flights_columns.map Column.name =
      ["flight_id", "airline", "origin", "destination", "departure_date",
       "arrival_date", "status", "price"] := by
  exact ⟨by decide, by decide⟩

/-- Claim C9.  The Schema Inspector is read-only: for every registry walked
and every starting state, the database files after get_schema_aux (and in
particular after get_schema over the configured DATABASES) are exactly the
files before the call. -/
theorem get_schema_read_only (registry : List (String × String)) (st : SysState) :
    ((get_schema_aux registry st).2).files = st.files ∧
    ((get_schema st).2).files = st.files :=
  ⟨get_schema_aux_files registry st, get_schema_aux_files DATABASES st⟩

/-- Claim C10.  When the engine executes a statement successfully and its
result set is rectangular (every fetched row has one cell per description
entry - the DB-API cursor guarantee) and a missing description comes with no
rows, then the envelope query_database returns is successful and
rectangular: every data row has exactly as many cells as there are column
names, and a statement producing no result set yields empty columns and
empty data. -/
theorem query_result_rows_rectangular
    (registry : List (String × String)) (engine : Engine) (st : SysState)
    (db_name query path : String) (descr : Option (List String))
    (rows : List (List Cell)) (newFile : DBFile)
    (hdb : registry.lookup db_name = some path)
    (hok : engine ((st.files.lookup path).getD []) query = ExecResult.ok descr rows newFile)
    (hrect : ∀ row ∈ rows, row.length = (descr.getD []).length)
    (hnone : descr = none → rows = []) :
    (query_database registry engine st db_name query).1 =
      Except.ok { success := true, columns := descr.getD [], data := rows, error := none } ∧
    rectangular { success := true, columns := descr.getD [], data := rows, error := none } ∧
    (descr = none → descr.getD [] = [] ∧ rows = []) := by
  refine ⟨?_, ?_, ?_⟩
  · simp [query_database, get_connection, hdb, hok]
  · intro row hrow
    exact hrect row hrow
  · intro hn
    exact ⟨by rw [hn]; rfl, hnone hn⟩

/-- Witness for claim C10 at a concrete input: a one-column one-row count
result against the flights database. -/
theorem query_result_rows_rectangular_witness :
    (query_database DATABASES okEngine initState "flights"
        "SELECT COUNT(*) AS n FROM flights").1 =
      Except.ok { success := true, columns := (some ["n"]).getD [],
                  data := [[Cell.int 10]], error := none } ∧
    rectangular { success := true, columns := (some ["n"]).getD [],
                  data := [[Cell.int 10]], error := none } ∧
    ((some ["n"] : Option (List String)) = none →
      (some ["n"] : Option (List String)).getD [] = [] ∧
      ([[Cell.int 10]] : List (List Cell)) = []) :=
  query_result_rows_rectangular DATABASES okEngine initState "flights"
    "SELECT COUNT(*) AS n FROM flights" flights_db_path (some ["n"])
    [[Cell.int 10]] [] (by decide) (by rfl) (by decide) (by decide)
